import Mathlib

/-
Verification of the amcrest2mqtt bridge (src/amcrest2mqtt.py) against its
natural-language specification.

The Python program is shallowly embedded below:
  * the `topics` dict (source lines 179-211) becomes a function from a key
    enumeration to topic strings;
  * the event loop (lines 427-439) becomes pure functions over a small JSON
    value type (`PJson`), with Python `KeyError` modelled as `Except.error`;
  * the stateful helpers `mqtt_publish`, `exit_gracefully`, `signal_handler`
    and `refresh_storage_sensors` (lines 54-123) become explicit state
    passing over `BridgeState`; broker acknowledgement codes and the device
    query outcome are inputs;
  * the startup configuration checks (lines 126-136 and 219-229) become a
    function from an environment record to an optional exit code;
  * `to_gb` (lines 104-105) is modelled with exact rational arithmetic in
    place of IEEE doubles (division by 1024 is exact in binary floating
    point, so the rational model matches the float computation wherever the
    float rounding of the input itself is exact).
-/

/-- Keys of the `topics` dict from the source, including both nested
Home Assistant discovery sub-dicts (`home_assistant_legacy` and
`home_assistant`). -/
inductive TopicKey
  | config | status | event | motion | doorbell | human
  | storage_used | storage_used_percent | storage_total
  | haLegacy_doorbell | haLegacy_human | haLegacy_motion
  | haLegacy_storage_used | haLegacy_storage_used_percent | haLegacy_storage_total
  | haLegacy_version | haLegacy_host | haLegacy_serial_number
  | ha_doorbell | ha_human | ha_motion
  | ha_storage_used | ha_storage_used_percent | ha_storage_total
  | ha_version | ha_host | ha_serial_number
  deriving DecidableEq

/-- The `topics` dict (source lines 179-211), translated f-string by
f-string.  `haPre` is the resolved `home_assistant_prefix`, `serial_number`
and `device_slug` come from the resolved device identity. -/
def topics (haPre serial_number device_slug : String) : TopicKey → String
  | .config => "amcrest2mqtt/" ++ serial_number ++ "/config"
  | .status => "amcrest2mqtt/" ++ serial_number ++ "/status"
  | .event => "amcrest2mqtt/" ++ serial_number ++ "/event"
  | .motion => "amcrest2mqtt/" ++ serial_number ++ "/motion"
  | .doorbell => "amcrest2mqtt/" ++ serial_number ++ "/doorbell"
  | .human => "amcrest2mqtt/" ++ serial_number ++ "/human"
  | .storage_used => "amcrest2mqtt/" ++ serial_number ++ "/storage/used"
  | .storage_used_percent => "amcrest2mqtt/" ++ serial_number ++ "/storage/used_percent"
  | .storage_total => "amcrest2mqtt/" ++ serial_number ++ "/storage/total"
  | .haLegacy_doorbell =>
      haPre ++ "/binary_sensor/amcrest2mqtt-" ++ serial_number ++ "/" ++ device_slug ++ "_doorbell/config"
  | .haLegacy_human =>
      haPre ++ "/binary_sensor/amcrest2mqtt-" ++ serial_number ++ "/" ++ device_slug ++ "_human/config"
  | .haLegacy_motion =>
      haPre ++ "/binary_sensor/amcrest2mqtt-" ++ serial_number ++ "/" ++ device_slug ++ "_motion/config"
  | .haLegacy_storage_used =>
      haPre ++ "/sensor/amcrest2mqtt-" ++ serial_number ++ "/" ++ device_slug ++ "_storage_used/config"
  | .haLegacy_storage_used_percent =>
      haPre ++ "/sensor/amcrest2mqtt-" ++ serial_number ++ "/" ++ device_slug ++ "_storage_used_percent/config"
  | .haLegacy_storage_total =>
      haPre ++ "/sensor/amcrest2mqtt-" ++ serial_number ++ "/" ++ device_slug ++ "_storage_total/config"
  | .haLegacy_version =>
      haPre ++ "/sensor/amcrest2mqtt-" ++ serial_number ++ "/" ++ device_slug ++ "_version/config"
  | .haLegacy_host =>
      haPre ++ "/sensor/amcrest2mqtt-" ++ serial_number ++ "/" ++ device_slug ++ "_host/config"
  | .haLegacy_serial_number =>
      haPre ++ "/sensor/amcrest2mqtt-" ++ serial_number ++ "/" ++ device_slug ++ "_serial_number/config"
  | .ha_doorbell => haPre ++ "/binary_sensor/amcrest2mqtt-" ++ serial_number ++ "/doorbell/config"
  | .ha_human => haPre ++ "/binary_sensor/amcrest2mqtt-" ++ serial_number ++ "/human/config"
  | .ha_motion => haPre ++ "/binary_sensor/amcrest2mqtt-" ++ serial_number ++ "/motion/config"
  | .ha_storage_used => haPre ++ "/sensor/amcrest2mqtt-" ++ serial_number ++ "/storage_used/config"
  | .ha_storage_used_percent =>
      haPre ++ "/sensor/amcrest2mqtt-" ++ serial_number ++ "/storage_used_percent/config"
  | .ha_storage_total => haPre ++ "/sensor/amcrest2mqtt-" ++ serial_number ++ "/storage_total/config"
  | .ha_version => haPre ++ "/sensor/amcrest2mqtt-" ++ serial_number ++ "/version/config"
  | .ha_host => haPre ++ "/sensor/amcrest2mqtt-" ++ serial_number ++ "/host/config"
  | .ha_serial_number => haPre ++ "/sensor/amcrest2mqtt-" ++ serial_number ++ "/serial_number/config"

/-- Structural skeleton of a topic string: either a main-namespace topic
`amcrest2mqtt/<serial><mid>/<last>` or a discovery topic
`<haPre>/<cls>/amcrest2mqtt-<serial>/<seg>/config`. -/
inductive TKind
  | main (mid last : List Char)
  | disc (cls seg : List Char)

/-- Rebuild a topic (as a character list) from its skeleton, the discovery
topic root and the serial number. -/
def buildK (p s : List Char) : TKind → List Char
  | .main mid last => "amcrest2mqtt/".data ++ s ++ mid ++ '/' :: last
  | .disc cls seg =>
      p ++ '/' :: (cls ++ "/amcrest2mqtt-".data ++ s ++ '/' :: (seg ++ '/' :: "config".data))

/-- Skeleton of each entry of the `topics` dict (`g` is the device slug). -/
def kindOf (g : List Char) : TopicKey → TKind
  | .config => .main [] "config".data
  | .status => .main [] "status".data
  | .event => .main [] "event".data
  | .motion => .main [] "motion".data
  | .doorbell => .main [] "doorbell".data
  | .human => .main [] "human".data
  | .storage_used => .main "/storage".data "used".data
  | .storage_used_percent => .main "/storage".data "used_percent".data
  | .storage_total => .main "/storage".data "total".data
  | .haLegacy_doorbell => .disc "binary_sensor".data (g ++ '_' :: "doorbell".data)
  | .haLegacy_human => .disc "binary_sensor".data (g ++ '_' :: "human".data)
  | .haLegacy_motion => .disc "binary_sensor".data (g ++ '_' :: "motion".data)
  | .haLegacy_storage_used => .disc "sensor".data (g ++ '_' :: "storage_used".data)
  | .haLegacy_storage_used_percent => .disc "sensor".data (g ++ '_' :: "storage_used_percent".data)
  | .haLegacy_storage_total => .disc "sensor".data (g ++ '_' :: "storage_total".data)
  | .haLegacy_version => .disc "sensor".data (g ++ '_' :: "version".data)
  | .haLegacy_host => .disc "sensor".data (g ++ '_' :: "host".data)
  | .haLegacy_serial_number => .disc "sensor".data (g ++ '_' :: "serial_number".data)
  | .ha_doorbell => .disc "binary_sensor".data "doorbell".data
  | .ha_human => .disc "binary_sensor".data "human".data
  | .ha_motion => .disc "binary_sensor".data "motion".data
  | .ha_storage_used => .disc "sensor".data "storage_used".data
  | .ha_storage_used_percent => .disc "sensor".data "storage_used_percent".data
  | .ha_storage_total => .disc "sensor".data "storage_total".data
  | .ha_version => .disc "sensor".data "version".data
  | .ha_host => .disc "sensor".data "host".data
  | .ha_serial_number => .disc "sensor".data "serial_number".data

/-- Final segments of the nine main-namespace topics that live directly under
`amcrest2mqtt/<serial>/`. -/
def mainLasts0 : List (List Char) :=
  ["config".data, "status".data, "event".data, "motion".data, "doorbell".data, "human".data]

/-- Final segments of the three storage topics (under `.../storage/`). -/
def mainLastsS : List (List Char) := ["used".data, "used_percent".data, "total".data]

/-- Well-formedness of a topic skeleton: main topics use one of the known
segment combinations; discovery topics use one of the two component classes
and a slash-free entity segment. -/
def KindShape : TKind → Prop
  | .main mid last =>
      (mid = [] ∧ last ∈ mainLasts0) ∨ (mid = "/storage".data ∧ last ∈ mainLastsS)
  | .disc cls seg =>
      (cls = "binary_sensor".data ∨ cls = "sensor".data) ∧ '/' ∉ seg

/-- First path segment of a character list (everything before the first
slash). -/
def firstSeg (l : List Char) : List Char := l.takeWhile (fun c => c != '/')

/-- Minimal JSON value model for device event payloads: strings and objects
(Python dicts with string keys). -/
inductive PJson
  | str (s : String)
  | obj (kvs : List (String × PJson))

/-- Association lookup in a JSON object, first match wins (Python dict
lookup on the parsed payload). -/
def lookupPairs : List (String × PJson) → String → Option PJson
  | [], _ => none
  | (k', v) :: rest, k => if k' == k then some v else lookupPairs rest k

/-- Python subscription `payload[k]`: a missing key (`KeyError`) or a
non-dict value (`TypeError`) crashes the loop, modelled as `Except.error`. -/
def getItem : PJson → String → Except Unit PJson
  | .obj kvs, k =>
      match lookupPairs kvs k with
      | some v => Except.ok v
      | none => Except.error ()
  | .str _, _ => Except.error ()

/-- Python `j == s` for a string literal `s`: true only when `j` is that
string. -/
def isStr (j : PJson) (s : String) : Bool :=
  match j with
  | .str t => t == s
  | _ => false

/-- JSON escaping of the two characters Python's `json.dumps` always
escapes in the payloads we model. -/
def escapeChar (c : Char) : List Char :=
  if c = '"' then ['\\', '"'] else if c = '\\' then ['\\', '\\'] else [c]

/-- Escape a string for inclusion in a JSON document. -/
def jsonEscape (s : String) : String := ⟨s.data.flatMap escapeChar⟩

mutual

/-- Python `json.dumps` with its default separators (`", "` and `": "`),
restricted to the payload value model. -/
def dumps : PJson → String
  | .str s => "\"" ++ jsonEscape s ++ "\""
  | .obj kvs => "\x7b" ++ String.intercalate ", " (dumpsEntries kvs) ++ "\x7d"

/-- Rendered `"key": value` entries of a JSON object, in order. -/
def dumpsEntries : List (String × PJson) → List String
  | [] => []
  | (k, v) :: rest => ("\"" ++ jsonEscape k ++ "\": " ++ dumps v) :: dumpsEntries rest

end

/-- Binary-sensor channels an event can be mapped to. -/
inductive SensorChannel
  | motion | human | doorbell
  deriving DecidableEq

/-- Evaluation of `payload["data"]["ObjectType"]`, the field inspected by
the `CrossRegionDetection` condition. -/
def objType (payload : PJson) : Except Unit PJson :=
  getItem payload "data" >>= fun d => getItem d "ObjectType"

/-- Channel selection of the event loop (source lines 428-436): which
binary-sensor channel, if any, a `(code, payload)` pair is routed to.  Only
the `CrossRegionDetection` guard reads the payload during selection; a
missing field there is a `KeyError` (`Except.error`). -/
def mapEvent (is_ad110 : Bool) (code : String) (payload : PJson) :
    Except Unit (Option SensorChannel) :=
  if (is_ad110 && code == "ProfileAlarmTransmit") || (code == "VideoMotion" && !is_ad110) then
    Except.ok (some .motion)
  else if code == "CrossRegionDetection" then
    objType payload >>= fun t =>
      Except.ok (if isStr t "Human" then some .human else none)
  else if code == "_DoTalkAction_" then
    Except.ok (some .doorbell)
  else
    Except.ok none

/-- One iteration of the event loop body (source lines 428-439): the list of
`(topic, message)` publishes it performs, in order, or `Except.error` when a
payload field access raises `KeyError`.  `T` is the topic table. -/
def handleEvent (is_ad110 : Bool) (T : TopicKey → String) (code : String) (payload : PJson) :
    Except Unit (List (String × String)) :=
  if (is_ad110 && code == "ProfileAlarmTransmit") || (code == "VideoMotion" && !is_ad110) then
    getItem payload "action" >>= fun a =>
      Except.ok [(T .motion, if isStr a "Start" then "on" else "off"),
        (T .event, dumps payload)]
  else if code == "CrossRegionDetection" then
    objType payload >>= fun t =>
      if isStr t "Human" then
        getItem payload "action" >>= fun a =>
          Except.ok [(T .human, if isStr a "Start" then "on" else "off"),
            (T .event, dumps payload)]
      else
        Except.ok [(T .event, dumps payload)]
  else if code == "_DoTalkAction_" then
    getItem payload "data" >>= fun d =>
      getItem d "Action" >>= fun a =>
        Except.ok [(T .doorbell, if isStr a "Invite" then "on" else "off"),
          (T .event, dumps payload)]
  else
    Except.ok [(T .event, dumps payload)]

/-- The whole event loop over a finite stream of events: concatenated
publishes, stopping at the first `KeyError`. -/
def eventLoop (is_ad110 : Bool) (T : TopicKey → String) :
    List (String × PJson) → Except Unit (List (String × String))
  | [] => Except.ok []
  | (code, payload) :: rest =>
      handleEvent is_ad110 T code payload >>= fun out =>
        eventLoop is_ad110 T rest >>= fun outs => Except.ok (out ++ outs)

/-- Whether a code matches none of the three mapping rules (for any
payload): the negation of the three `if`/`elif` guards of the loop. -/
def isUnmappedCode (is_ad110 : Bool) (code : String) : Bool :=
  !((is_ad110 && code == "ProfileAlarmTransmit") || (code == "VideoMotion" && !is_ad110)) &&
    code != "CrossRegionDetection" && code != "_DoTalkAction_"

/-- Observable state of the bridge process: the `is_exiting` flag, the MQTT
connection flag, the retained publishes issued so far, the log lines, the
timers armed (by their interval), and the `os._exit` status once set. -/
structure BridgeState where
  is_exiting : Bool := false
  connected : Bool := true
  published : List (String × String) := []
  logs : List (String × String) := []
  timers : List Int := []
  exitCode : Option Int := none
  deriving DecidableEq

/-- Append a log line (the `log` helper, source lines 50-52; timestamps are
not modelled). -/
def addLog (level msg : String) (s : BridgeState) : BridgeState :=
  { s with logs := s.logs ++ [(level, msg)] }

/-- The `mqtt_publish` call with `exit_on_error=False` (source lines 54-68):
on a success acknowledgement the message is recorded, otherwise only an
error line is logged.  `ack` is the broker acknowledgement code `msg.rc`. -/
def mqtt_publish_noexit (topic payload : String) (ack : Int) (s : BridgeState) : BridgeState :=
  if ack = 0 then { s with published := s.published ++ [(topic, payload)] }
  else addLog "ERROR" ("Error publishing MQTT message: " ++ toString ack) s

/-- The `exit_gracefully` function (source lines 75-87): log, then — only
when still connected and `skip_mqtt` is false — best-effort publish
`"offline"` to the status topic (acknowledgement `offAck`) and disconnect,
then `os._exit(rc)`. -/
def exit_gracefully (T : TopicKey → String) (rc : Int) (skip_mqtt : Bool) (offAck : Int)
    (s : BridgeState) : BridgeState :=
  let s1 := addLog "INFO" "Exiting app..." s
  let s2 :=
    if s1.connected && !skip_mqtt then
      { mqtt_publish_noexit (T .status) "offline" offAck s1 with connected := false }
    else s1
  { s2 with exitCode := some rc }

/-- The `mqtt_publish` call with its default `exit_on_error=True` (source
lines 54-68): a non-success acknowledgement logs the error and calls
`exit_gracefully(msg.rc, skip_mqtt=True)`. -/
def mqtt_publish (T : TopicKey → String) (topic payload : String) (ack : Int)
    (offAck : Int) (s : BridgeState) : BridgeState :=
  if ack = 0 then { s with published := s.published ++ [(topic, payload)] }
  else
    let s1 := addLog "ERROR" ("Error publishing MQTT message: " ++ toString ack) s
    exit_gracefully T ack true offAck s1

/-- The SIGINT handler (source lines 115-123): a second signal while
`is_exiting` is already set calls `os._exit(1)` immediately; otherwise the
flag is set and `exit_gracefully(0)` runs. -/
def signal_handler (T : TopicKey → String) (offAck : Int) (s : BridgeState) : BridgeState :=
  if s.is_exiting then { s with exitCode := some 1 }
  else exit_gracefully T 0 false offAck { s with is_exiting := true }

/-- Nearest-integer rounding with ties to even — Python's `round` on the
exact value. -/
def pyRoundInt (q : ℚ) : ℤ :=
  if q - ⌊q⌋ < 1 / 2 then ⌊q⌋
  else if 1 / 2 < q - ⌊q⌋ then ⌊q⌋ + 1
  else if ⌊q⌋ % 2 = 0 then ⌊q⌋ else ⌊q⌋ + 1

/-- Python `round(x, 2)` on the exact value: round `100 x` to the nearest
integer (ties to even) and scale back. -/
def pyRound2 (q : ℚ) : ℚ := (pyRoundInt (q * 100) : ℚ) / 100

/-- Decimal rendering of a non-negative multiple of `1/100` the way Python's
`str` prints such a float (`"12.0"`, `"12.5"`, `"12.34"`). -/
def qstr (q : ℚ) : String :=
  let k : ℤ := ⌊q * 100⌋
  let ip : ℤ := k / 100
  let fr : ℤ := k % 100
  if fr = 0 then toString ip ++ ".0"
  else if fr % 10 = 0 then toString ip ++ "." ++ toString (fr / 10)
  else if fr < 10 then toString ip ++ ".0" ++ toString fr
  else toString ip ++ "." ++ toString fr

/-- The `to_gb` helper (source lines 104-105):
`str(round(float(total[0]) / 1024 / 1024 / 1024, 2))`, with the float
arithmetic modelled exactly over the rationals (`total0` is `total[0]`). -/
def to_gb (total0 : ℚ) : String := qstr (pyRound2 (total0 / 1024 / 1024 / 1024))

/-- The gigabyte conversion exactly as the specification words it:
`round(b / 1073741824, 2)` rendered as a decimal string (definition written
from the spec, for comparison with `to_gb`). -/
def gb_spec (b : ℚ) : String := qstr (pyRound2 (b / 1073741824))

/-- Device storage query result (`camera.storage_all`), values as exact
rationals. -/
structure StorageAll where
  used_percent : ℚ
  used : ℚ
  total : ℚ

/-- The `refresh_storage_sensors` task (source lines 89-102): re-arm the
timer first, log, then either publish the three storage values (success) or
log a warning and skip the tick (an `AmcrestError`, carried as the `query`
input).  `a1 a2 a3` are the acknowledgement codes of the three publishes. -/
def refresh_storage_sensors (T : TopicKey → String) (interval : Int)
    (query : Except String StorageAll) (a1 a2 a3 offAck : Int) (s : BridgeState) : BridgeState :=
  let s0 := { s with timers := s.timers ++ [interval] }
  let s1 := addLog "INFO" "Fetching storage sensors..." s0
  match query with
  | .ok storage =>
      let s2 := mqtt_publish T (T .storage_used_percent) (qstr storage.used_percent) a1 offAck s1
      let s3 := mqtt_publish T (T .storage_used) (to_gb storage.used) a2 offAck s2
      mqtt_publish T (T .storage_total) (to_gb storage.total) a3 offAck s3
  | .error e =>
      addLog "WARNING" ("Error fetching storage information " ++ e) s1

/-- Environment values consumed by the startup checks. -/
structure EnvConfig where
  amcrest_host : Option String
  amcrest_password : Option String
  mqtt_username : Option String
  mqtt_tls_enabled : Bool
  mqtt_tls_ca_cert : Option String
  mqtt_tls_cert : Option String
  mqtt_tls_key : Option String
  deriving DecidableEq

/-- The required-variable checks at source lines 126-136: `sys.exit(1)` when
`AMCREST_HOST`, `AMCREST_PASSWORD` or `MQTT_USERNAME` is unset. -/
def required_env_checks (c : EnvConfig) : Option Int :=
  if c.amcrest_host = none then some 1
  else if c.amcrest_password = none then some 1
  else if c.mqtt_username = none then some 1
  else none

/-- The TLS material checks at source lines 219-229, translated exactly:
note the third branch tests `mqtt_tls_cert` a second time (while logging
about `MQTT_TLS_KEY`); `mqtt_tls_key` itself is never tested. -/
def tls_config_checks (c : EnvConfig) : Option Int :=
  if c.mqtt_tls_enabled then
    if c.mqtt_tls_ca_cert = none then some 1
    else if c.mqtt_tls_cert = none then some 1
    else if c.mqtt_tls_cert = none then some 1
    else none
  else none

/-- All configuration checks that run before `mqtt_client.connect` (line
241): the exit code when the process stops during startup, `none` when it
proceeds to connect. -/
def startup_exit_before_connect (c : EnvConfig) : Option Int :=
  match required_env_checks c with
  | some rc => some rc
  | none => tls_config_checks c

/-- Discovery-eligible entities; each stands for one
(retract-legacy, publish-current) descriptor pair of the Home Assistant
block (source lines 248-406).  Descriptor payload bodies are not modelled:
the claims below only concern which descriptors are published. -/
inductive DiscEntity
  | doorbell | human | motion | version | serial_number | host
  | storage_used_percent | storage_used | storage_total
  deriving DecidableEq

/-- The sequence of discovery descriptor pairs published when
`home_assistant` is enabled, in source order: doorbell only for doorbell
models, human only for the AD410, then motion, version, serial number and
host, and the storage sensors only when `storage_poll_interval > 0`
(source line 361). -/
def discovery_entities (is_doorbell is_ad410 : Bool) (storage_poll_interval : Int) :
    List DiscEntity :=
  (if is_doorbell then [.doorbell] else []) ++
  (if is_ad410 then [.human] else []) ++
  [.motion, .version, .serial_number, .host] ++
  (if storage_poll_interval > 0 then [.storage_used_percent, .storage_used, .storage_total]
   else [])

/-- The (legacy, current) discovery topic pair of each entity. -/
def discovery_topic_pair (T : TopicKey → String) : DiscEntity → String × String
  | .doorbell => (T .haLegacy_doorbell, T .ha_doorbell)
  | .human => (T .haLegacy_human, T .ha_human)
  | .motion => (T .haLegacy_motion, T .ha_motion)
  | .version => (T .haLegacy_version, T .ha_version)
  | .serial_number => (T .haLegacy_serial_number, T .ha_serial_number)
  | .host => (T .haLegacy_host, T .ha_host)
  | .storage_used_percent => (T .haLegacy_storage_used_percent, T .ha_storage_used_percent)
  | .storage_used => (T .haLegacy_storage_used, T .ha_storage_used)
  | .storage_total => (T .haLegacy_storage_total, T .ha_storage_total)

/-- The storage polling task is started at source lines 419-420 only when
`storage_poll_interval > 0`; `refresh_storage_sensors` is the only other
arming site and only re-arms itself. -/
def storage_poll_armed (storage_poll_interval : Int) : Bool := storage_poll_interval > 0

/-- Bridge state at startup (just after a successful connect): connected,
nothing published yet, no exit requested. -/
def initState : BridgeState := {}

/-- A concrete topic table (default discovery root, serial `SER123`, slug
`cam`) used by concrete evaluations below. -/
def sampleTopics : TopicKey → String := topics "homeassistant" "SER123" "cam"

/-- A concrete `CrossRegionDetection`-style payload: human object type,
`Start` action. -/
def pHumanStart : PJson :=
  .obj [("data", .obj [("ObjectType", .str "Human")]), ("action", .str "Start")]

/-- Same payload with the action changed — the fields the mapping never
reads for channel selection. -/
def pHumanStop : PJson :=
  .obj [("data", .obj [("ObjectType", .str "Human")]), ("action", .str "Stop")]

/-- A concrete `_DoTalkAction_` payload with `data.Action = "Invite"`. -/
def pInvite : PJson := .obj [("data", .obj [("Action", .str "Invite")])]

/-- Splitting at the first slash is unique: if two concatenations of a
slash-free block, a slash, and a tail are equal, the blocks and tails agree. -/
theorem split_first {x y u v : List Char} (hx : '/' ∉ x) (hy : '/' ∉ y)
    (h : x ++ '/' :: u = y ++ '/' :: v) : x = y ∧ u = v := by
  induction x generalizing y with
  | nil =>
    cases y with
    | nil => simpa using h
    | cons d ys =>
      simp only [List.nil_append, List.cons_append, List.cons.injEq] at h
      exact absurd (h.1 ▸ List.mem_cons_self d ys) hy
  | cons c xs ih =>
    cases y with
    | nil =>
      simp only [List.nil_append, List.cons_append, List.cons.injEq] at h
      exact absurd (h.1.symm ▸ List.mem_cons_self c xs) hx
    | cons d ys =>
      simp only [List.cons_append, List.cons.injEq] at h
      have hx' : '/' ∉ xs := fun hm => hx (List.mem_cons_of_mem _ hm)
      have hy' : '/' ∉ ys := fun hm => hy (List.mem_cons_of_mem _ hm)
      obtain ⟨he, hu⟩ := ih hx' hy' h.2
      exact ⟨by rw [h.1, he], hu⟩

/-- Splitting at the last slash is unique: if two concatenations of a stem,
a slash, and a slash-free final segment are equal, the stems and final
segments agree. -/
theorem split_last {u v x y : List Char} (hx : '/' ∉ x) (hy : '/' ∉ y)
    (h : u ++ '/' :: x = v ++ '/' :: y) : u = v ∧ x = y := by
  have h' := congrArg List.reverse h
  simp only [List.reverse_append, List.reverse_cons, List.append_assoc,
    List.singleton_append] at h'
  have hx' : '/' ∉ x.reverse := by simpa using hx
  have hy' : '/' ∉ y.reverse := by simpa using hy
  obtain ⟨h1, h2⟩ := split_first hx' hy' h'
  exact ⟨List.reverse_injective h2, List.reverse_injective h1⟩

/-- The first path segment ignores everything after the first slash. -/
theorem firstSeg_append (a b : List Char) : firstSeg (a ++ '/' :: b) = firstSeg a := by
  induction a with
  | nil => simp [firstSeg]
  | cons c cs ih =>
    by_cases hc : c = '/'
    · subst hc; simp [firstSeg, List.takeWhile_cons]
    · simpa [firstSeg, List.takeWhile_cons, hc] using ih

/-- A slash-free list is its own first segment. -/
theorem firstSeg_of_no_slash {a : List Char} (h : '/' ∉ a) : firstSeg a = a := by
  induction a with
  | nil => rfl
  | cons c cs ih =>
    have hc : c ≠ '/' := fun e => h (e ▸ List.mem_cons_self c cs)
    have h' : '/' ∉ cs := fun hm => h (List.mem_cons_of_mem _ hm)
    simp [firstSeg, List.takeWhile_cons, hc] at ih ⊢
    exact ih h'

/-- Every entry of the `topics` dict matches its skeleton. -/
theorem topics_data (p s g : String) (k : TopicKey) :
    (topics p s g k).data = buildK p.data s.data (kindOf g.data k) := by
  cases k <;>
    simp only [topics, buildK, kindOf, String.data_append, List.append_assoc,
      List.append_nil, List.nil_append, List.cons_append]

/-- The skeletons produced by `kindOf` are well-formed whenever the device
slug is slash-free. -/
theorem kindOf_shape {g : List Char} (hg : '/' ∉ g) (k : TopicKey) :
    KindShape (kindOf g k) := by
  cases k <;>
    first
      | exact Or.inl ⟨rfl, by decide⟩
      | exact Or.inr ⟨rfl, by decide⟩
      | exact ⟨Or.inl rfl, by decide⟩
      | exact ⟨Or.inr rfl, by decide⟩
      | exact ⟨Or.inl rfl, by
          intro hm
          rcases List.mem_append.mp hm with hm | hm
          · exact hg hm
          · revert hm; decide⟩
      | exact ⟨Or.inr rfl, by
          intro hm
          rcases List.mem_append.mp hm with hm | hm
          · exact hg hm
          · revert hm; decide⟩

/-- Final segments of main-namespace topics are slash-free. -/
theorem mainshape_no_slash {m l : List Char} (h : KindShape (.main m l)) : '/' ∉ l := by
  have h0 : ∀ x ∈ mainLasts0, '/' ∉ x := by decide
  have hS : ∀ x ∈ mainLastsS, '/' ∉ x := by decide
  rcases h with ⟨_, hm⟩ | ⟨_, hm⟩
  exacts [h0 l hm, hS l hm]

/-- Discovery skeleton components are slash-free. -/
theorem discshape_no_slash {c sg : List Char} (h : KindShape (.disc c sg)) :
    '/' ∉ c ∧ '/' ∉ sg := by
  obtain ⟨hc, hs⟩ := h
  refine ⟨?_, hs⟩
  rcases hc with rfl | rfl <;> decide

/-- In a well-formed main skeleton the final segment determines the middle
part (`""` versus `"/storage"`). -/
theorem mainshape_mid {m1 l1 m2 l2 : List Char}
    (h1 : KindShape (.main m1 l1)) (h2 : KindShape (.main m2 l2))
    (hl : l1 = l2) : m1 = m2 := by
  have disj : ∀ l ∈ mainLasts0, l ∉ mainLastsS := by decide
  subst hl
  rcases h1 with ⟨e1, hm1⟩ | ⟨e1, hm1⟩ <;> rcases h2 with ⟨e2, hm2⟩ | ⟨e2, hm2⟩
  · rw [e1, e2]
  · exact absurd hm2 (disj l1 hm1)
  · exact absurd hm1 (disj l1 hm2)
  · rw [e1, e2]

/-- Two main-namespace topics built from different serial numbers differ. -/
theorem buildK_main_main {p s1 s2 : List Char} (hne : s1 ≠ s2)
    {m1 l1 m2 l2 : List Char}
    (h1 : KindShape (.main m1 l1)) (h2 : KindShape (.main m2 l2)) :
    buildK p s1 (.main m1 l1) ≠ buildK p s2 (.main m2 l2) := by
  intro h
  have h' : ("amcrest2mqtt/".data ++ s1 ++ m1) ++ '/' :: l1
      = ("amcrest2mqtt/".data ++ s2 ++ m2) ++ '/' :: l2 := by
    simpa [buildK, List.append_assoc] using h
  obtain ⟨hstem, hlast⟩ := split_last (mainshape_no_slash h1) (mainshape_no_slash h2) h'
  have hm : m1 = m2 := mainshape_mid h1 h2 hlast
  rw [hm] at hstem
  exact hne (List.append_cancel_left (List.append_cancel_right hstem))

/-- Reassociation of the discovery-topic serial block. -/
theorem disc_block_eq (c s : List Char) :
    c ++ "/amcrest2mqtt-".data ++ s = c ++ '/' :: ("amcrest2mqtt-".data ++ s) := by
  rw [List.append_assoc]; rfl

/-- Two discovery topics built from different serial numbers differ. -/
theorem buildK_disc_disc {p s1 s2 : List Char} (hne : s1 ≠ s2)
    {c1 g1 c2 g2 : List Char}
    (h1 : KindShape (.disc c1 g1)) (h2 : KindShape (.disc c2 g2)) :
    buildK p s1 (.disc c1 g1) ≠ buildK p s2 (.disc c2 g2) := by
  intro h
  obtain ⟨hc1, hg1⟩ := discshape_no_slash h1
  obtain ⟨hc2, hg2⟩ := discshape_no_slash h2
  have h' : ((p ++ '/' :: (c1 ++ "/amcrest2mqtt-".data ++ s1)) ++ '/' :: g1) ++ '/' :: "config".data
      = ((p ++ '/' :: (c2 ++ "/amcrest2mqtt-".data ++ s2)) ++ '/' :: g2) ++ '/' :: "config".data := by
    simpa [buildK, List.append_assoc, disc_block_eq] using h
  obtain ⟨h'', _⟩ := split_last (by decide) (by decide) h'
  obtain ⟨hstem, _⟩ := split_last hg1 hg2 h''
  have hcs : c1 ++ "/amcrest2mqtt-".data ++ s1 = c2 ++ "/amcrest2mqtt-".data ++ s2 := by
    have := List.append_cancel_left hstem
    simpa using this
  have hfs : c1 = c2 := by
    have hq := congrArg firstSeg hcs
    rw [disc_block_eq c1 s1, disc_block_eq c2 s2, firstSeg_append, firstSeg_append,
      firstSeg_of_no_slash hc1, firstSeg_of_no_slash hc2] at hq
    exact hq
  rw [hfs, disc_block_eq, disc_block_eq] at hcs
  have := List.append_cancel_left hcs
  simp only [List.cons.injEq, true_and] at this
  exact hne (List.append_cancel_left this)

/-- A main-namespace topic never equals a discovery topic when the discovery
root's first path segment is not `amcrest2mqtt`. -/
theorem buildK_main_disc {p s1 s2 : List Char}
    (hp : firstSeg p ≠ "amcrest2mqtt".data) {m l c g : List Char} :
    buildK p s1 (.main m l) ≠ buildK p s2 (.disc c g) := by
  intro h
  have em : buildK p s1 (.main m l) = "amcrest2mqtt".data ++ '/' :: (s1 ++ (m ++ '/' :: l)) := by
    show "amcrest2mqtt/".data ++ s1 ++ m ++ '/' :: l = _
    simp only [List.append_assoc, List.cons_append]
    try rfl
  have hm : firstSeg (buildK p s1 (.main m l)) = "amcrest2mqtt".data := by
    rw [em, firstSeg_append, firstSeg_of_no_slash (by decide)]
  have hd : firstSeg (buildK p s2 (.disc c g)) = firstSeg p := firstSeg_append ..
  rw [h, hd] at hm
  exact hp hm

/-- Two well-formed topic skeletons instantiated at different serial numbers
always produce different topic strings. -/
theorem buildK_ne {p s1 s2 : List Char} (hp : firstSeg p ≠ "amcrest2mqtt".data)
    (hne : s1 ≠ s2) {t1 t2 : TKind} (h1 : KindShape t1) (h2 : KindShape t2) :
    buildK p s1 t1 ≠ buildK p s2 t2 := by
  cases t1 with
  | main m1 l1 =>
    cases t2 with
    | main m2 l2 => exact buildK_main_main hne h1 h2
    | disc c2 g2 => exact buildK_main_disc hp
  | disc c1 g1 =>
    cases t2 with
    | main m2 l2 => exact fun h => buildK_main_disc hp h.symm
    | disc c2 g2 => exact buildK_disc_disc hne h1 h2

/-- C1 (amended): for a fixed discovery topic root whose first path segment
is not `amcrest2mqtt` (true of the default `homeassistant`), and slash-free
device slugs (`slugify` never emits a slash), any two devices with distinct
serial numbers — the serial numbers being otherwise arbitrary non-empty
strings — have pairwise disjoint topic sets: no entry of one device's
`topics` dict equals any entry of the other's. -/
theorem topics_disjoint_of_serial_ne (haPre s1 g1 s2 g2 : String)
    (hp : firstSeg haPre.data ≠ "amcrest2mqtt".data)
    (h1 : s1 ≠ "") (h2 : s2 ≠ "")
    (hg1 : '/' ∉ g1.data) (hg2 : '/' ∉ g2.data)
    (hne : s1 ≠ s2) :
    ∀ k1 k2 : TopicKey, topics haPre s1 g1 k1 ≠ topics haPre s2 g2 k2 := by
  intro k1 k2 h
  have hd := congrArg String.data h
  rw [topics_data, topics_data] at hd
  have hsd : s1.data ≠ s2.data := fun hq => hne (String.ext hq)
  exact buildK_ne hp hsd (kindOf_shape hg1 k1) (kindOf_shape hg2 k2) hd

/-- C1 witness: the amended disjointness theorem applied at the default
discovery root and two concrete serial numbers. -/
theorem topics_disjoint_witness :
    topics "homeassistant" "AAA111" "cam" .status ≠ topics "homeassistant" "BBB222" "cam" .status :=
  topics_disjoint_of_serial_ne "homeassistant" "AAA111" "cam" "BBB222" "cam"
    (by decide) (by decide) (by decide) (by decide) (by decide) (by decide) .status .status

/-- C1 counterexample: as literally stated — for arbitrary non-empty serial
numbers under the configured discovery root — disjointness fails: with
`home_assistant_prefix = "amcrest2mqtt"`, the main `config` topic of a
device with serial `"sensor/amcrest2mqtt-B/host"` equals the current
discovery `host` topic of a device with serial `"B"`, although the two
serial numbers are distinct and non-empty. -/
theorem topics_collision :
    topics "amcrest2mqtt" "sensor/amcrest2mqtt-B/host" "cam" .config
      = topics "amcrest2mqtt" "B" "cam" .ha_host ∧
    ("sensor/amcrest2mqtt-B/host" : String) ≠ "B" ∧
    ("sensor/amcrest2mqtt-B/host" : String) ≠ "" ∧ ("B" : String) ≠ "" := by
  refine ⟨by decide, by decide, by decide, by decide⟩

/-- Computation rule for bind on a successful `Except`. -/
theorem except_bind_ok {α β γ : Type} (a : α) (f : α → Except γ β) :
    (Except.ok a >>= f) = f a := rfl

/-- Computation rule for bind on a failed `Except`. -/
theorem except_bind_error {α β γ : Type} (e : γ) (f : α → Except γ β) :
    ((Except.error e : Except γ α) >>= f) = Except.error e := rfl

/-- C3 counterexample: the mapping is not total over payload shapes — a
`CrossRegionDetection` event whose payload is an empty object makes the
channel-selection guard raise `KeyError` (the `try` at source line 426 only
catches `AmcrestError`). -/
theorem mapEvent_keyerror :
    mapEvent false "CrossRegionDetection" (.obj []) = Except.error () := rfl

/-- C3 (amended): channel selection is deterministic and blind to history —
whenever the payload supplies the `data.ObjectType` field the selection is
defined; the selection depends only on the code, the capability flag and
that field; and each event's publishes in the loop are a function of that
event alone, independent of all earlier events. -/
theorem mapEvent_total_deterministic :
    ∀ (is_ad110 : Bool) (code : String) (p q : PJson),
      ((objType p).isOk = true → ∃ c, mapEvent is_ad110 code p = Except.ok c) ∧
      (objType p = objType q → mapEvent is_ad110 code p = mapEvent is_ad110 code q) ∧
      (∀ (T : TopicKey → String) (es : List (String × PJson)) (e : String × PJson),
        eventLoop is_ad110 T (es ++ [e])
          = eventLoop is_ad110 T es >>= fun xs =>
              handleEvent is_ad110 T e.1 e.2 >>= fun ys => Except.ok (xs ++ ys)) := by
  intro flag code p q
  refine ⟨?_, ?_, ?_⟩
  · intro hok
    unfold mapEvent
    split
    · exact ⟨_, rfl⟩
    · split
      · cases ht : objType p with
        | error err => rw [ht] at hok; cases hok
        | ok t =>
          refine ⟨if isStr t "Human" then some SensorChannel.human else none, ?_⟩
          rfl
      · split
        · exact ⟨_, rfl⟩
        · exact ⟨_, rfl⟩
  · intro hpq
    unfold mapEvent
    rw [hpq]
  · intro T es e
    obtain ⟨ce, pe⟩ := e
    induction es with
    | nil =>
      cases hh : handleEvent flag T ce pe with
      | error err => simp [eventLoop, hh, except_bind_error, except_bind_ok]
      | ok out => simp [eventLoop, hh, except_bind_error, except_bind_ok]
    | cons ev rest ih =>
      obtain ⟨c0, p0⟩ := ev
      simp only [List.cons_append, eventLoop, List.append_eq]
      rw [ih]
      cases hh1 : handleEvent flag T c0 p0 with
      | error err => simp [hh1, except_bind_error]
      | ok out1 =>
        cases h2 : eventLoop flag T rest with
        | error err => simp [hh1, h2, except_bind_ok, except_bind_error]
        | ok xs =>
          cases h3 : handleEvent flag T ce pe with
          | error err => simp [hh1, h2, h3, except_bind_ok, except_bind_error]
          | ok ys => simp [hh1, h2, h3, except_bind_ok, except_bind_error, List.append_assoc]

/-- C3 witness: the amended theorem applied at a concrete capability flag,
code, payloads and a concrete two-event stream. -/
theorem mapEvent_total_deterministic_witness :
    (∃ c, mapEvent false "CrossRegionDetection" pHumanStart = Except.ok c) ∧
    mapEvent false "CrossRegionDetection" pHumanStart
      = mapEvent false "CrossRegionDetection" pHumanStop ∧
    eventLoop false sampleTopics ([("VideoMotion", pHumanStart)] ++ [("Other", pInvite)])
      = eventLoop false sampleTopics [("VideoMotion", pHumanStart)] >>= fun xs =>
          handleEvent false sampleTopics "Other" pInvite >>= fun ys => Except.ok (xs ++ ys) :=
  ⟨(mapEvent_total_deterministic false "CrossRegionDetection" pHumanStart pHumanStop).1 rfl,
    (mapEvent_total_deterministic false "CrossRegionDetection" pHumanStart pHumanStop).2.1 rfl,
    (mapEvent_total_deterministic false "CrossRegionDetection" pHumanStart pHumanStop).2.2
      sampleTopics [("VideoMotion", pHumanStart)] ("Other", pInvite)⟩

/-- C4 counterexample: the message published to the generic event channel is
the JSON encoding of the payload alone, not of the (code, payload) pair —
for the unmapped code `"UnmappedCode"` the loop publishes exactly one
message, whose body does not even contain the character `U`, so no encoding
of the code is part of it. -/
theorem event_channel_omits_code :
    handleEvent false sampleTopics "UnmappedCode" (PJson.obj [("a", PJson.str "b")])
      = Except.ok [("amcrest2mqtt/SER123/event", "\x7b\"a\": \"b\"\x7d")] ∧
    'U' ∈ "UnmappedCode".data ∧
    'U' ∉ "\x7b\"a\": \"b\"\x7d".data :=
  ⟨rfl, by decide, by decide⟩

/-- C4 (amended): whenever an iteration of the loop completes, the raw
payload (code omitted) is published JSON-encoded to the generic event
channel; and a code matching no mapping rule publishes exactly that one
message — never a binary-sensor message. -/
theorem event_channel_passthrough :
    ∀ (is_ad110 : Bool) (T : TopicKey → String) (code : String) (p : PJson)
      (out : List (String × String)),
      (handleEvent is_ad110 T code p = Except.ok out → (T .event, dumps p) ∈ out) ∧
      (isUnmappedCode is_ad110 code = true →
        handleEvent is_ad110 T code p = Except.ok [(T .event, dumps p)]) := by
  intro flag T code p out
  constructor
  · intro h
    unfold handleEvent at h
    split at h
    · cases ha : getItem p "action" with
      | error err => simp only [ha, except_bind_error] at h; cases h
      | ok a =>
        simp only [ha, except_bind_ok] at h
        cases h
        simp
    · split at h
      · cases ht : objType p with
        | error err => simp only [ht, except_bind_error] at h; cases h
        | ok t =>
          simp only [ht, except_bind_ok] at h
          split at h
          · cases ha : getItem p "action" with
            | error err => simp only [ha, except_bind_error] at h; cases h
            | ok a =>
              simp only [ha, except_bind_ok] at h
              cases h
              simp
          · cases h
            simp
      · split at h
        · cases hd : getItem p "data" with
          | error err => simp only [hd, except_bind_error] at h; cases h
          | ok d =>
            simp only [hd, except_bind_ok] at h
            cases ha : getItem d "Action" with
            | error err => simp only [ha, except_bind_error] at h; cases h
            | ok a =>
              simp only [ha, except_bind_ok] at h
              cases h
              simp
        · cases h
          simp
  · intro hu
    simp only [isUnmappedCode, Bool.and_eq_true, Bool.not_eq_true', bne_iff_ne, ne_eq] at hu
    obtain ⟨⟨hA, hC⟩, hD⟩ := hu
    have nA : ¬(((flag && code == "ProfileAlarmTransmit")
        || (code == "VideoMotion" && !flag)) = true) := by rw [hA]; simp
    have nC : ¬((code == "CrossRegionDetection") = true) := by simpa using hC
    have nD : ¬((code == "_DoTalkAction_") = true) := by simpa using hD
    unfold handleEvent
    rw [if_neg nA, if_neg nC, if_neg nD]

/-- C4 witness: the passthrough theorem applied at a concrete unmapped code
and payload. -/
theorem event_channel_passthrough_witness :
    (sampleTopics .event, dumps pInvite) ∈ [(sampleTopics .event, dumps pInvite)] ∧
    handleEvent false sampleTopics "SomeOtherCode" pInvite
      = Except.ok [(sampleTopics .event, dumps pInvite)] :=
  ⟨(event_channel_passthrough false sampleTopics "SomeOtherCode" pInvite
      [(sampleTopics .event, dumps pInvite)]).1 rfl,
    (event_channel_passthrough false sampleTopics "SomeOtherCode" pInvite []).2 rfl⟩

/-- C10 (confirmed): for every capability flag — the event loop reads only
`is_ad110`, so doorbell and non-doorbell models alike — a `_DoTalkAction_`
event whose payload supplies `data.Action` publishes to the doorbell
channel: `"on"` exactly when the action value equals `"Invite"`, `"off"` for
any other value; the doorbell capability flag gates nothing here. -/
theorem dotalk_any_device :
    ∀ (is_ad110 : Bool) (T : TopicKey → String) (p v : PJson),
      (getItem p "data" >>= fun d => getItem d "Action") = Except.ok v →
      handleEvent is_ad110 T "_DoTalkAction_" p
        = Except.ok [(T .doorbell, if isStr v "Invite" then "on" else "off"),
            (T .event, dumps p)] := by
  intro flag T p v h
  have c1 : ((flag && "_DoTalkAction_" == "ProfileAlarmTransmit")
      || ("_DoTalkAction_" == "VideoMotion" && !flag)) = false := by
    cases flag <;> rfl
  have n1 : ¬(((flag && "_DoTalkAction_" == "ProfileAlarmTransmit")
      || ("_DoTalkAction_" == "VideoMotion" && !flag)) = true) := by rw [c1]; simp
  have n2 : ¬(("_DoTalkAction_" == "CrossRegionDetection") = true) := by decide
  unfold handleEvent
  rw [if_neg n1, if_neg n2, if_pos (by decide : ("_DoTalkAction_" == "_DoTalkAction_") = true)]
  cases hd : getItem p "data" with
  | error err => simp only [hd, except_bind_error] at h; cases h
  | ok d =>
    simp only [hd, except_bind_ok] at h ⊢
    cases ha : getItem d "Action" with
    | error err => simp only [ha, except_bind_error] at h; cases h
    | ok a =>
      simp only [ha, except_bind_ok] at h ⊢
      injection h with h2
      rw [h2]

/-- C10 witness: a non-doorbell capability flag, a concrete `Invite` payload. -/
theorem dotalk_any_device_witness :
    handleEvent false sampleTopics "_DoTalkAction_" pInvite
      = Except.ok [(sampleTopics .doorbell, "on"), (sampleTopics .event, dumps pInvite)] := by
  have := dotalk_any_device false sampleTopics pInvite (.str "Invite") rfl
  simpa using this

/-- C2 counterexample: a publish with the default exit-on-error behaviour
that receives acknowledgement code 5 while connected terminates with exit
status 5 but never publishes the `"offline"` status message — the failure
path calls `exit_gracefully` with `skip_mqtt=True`, which skips the offline
announcement. -/
theorem publish_failure_no_offline :
    (mqtt_publish sampleTopics (sampleTopics .motion) "on" 5 0 initState).exitCode = some 5 ∧
    (sampleTopics .status, "offline")
      ∉ (mqtt_publish sampleTopics (sampleTopics .motion) "on" 5 0 initState).published := by
  exact ⟨rfl, by decide⟩

/-- C2 (amended): a publish call with the default exit-on-error behaviour
that receives a non-success acknowledgement escalates to the shutdown path
exactly once — logging the error, skipping the offline status publish
(`skip_mqtt=True`; offline signalling is left to the broker's retained
last-will) — and terminates with the acknowledgement code as the process
exit status, publishing nothing further. -/
theorem publish_failure_exits :
    ∀ (T : TopicKey → String) (topic payload : String) (ack offAck : Int) (s : BridgeState),
      ack ≠ 0 →
      mqtt_publish T topic payload ack offAck s
        = { s with
              logs := s.logs ++ [("ERROR", "Error publishing MQTT message: " ++ toString ack),
                ("INFO", "Exiting app...")],
              exitCode := some ack } := by
  intro T t pl ack off s h
  unfold mqtt_publish exit_gracefully addLog mqtt_publish_noexit
  rw [if_neg h]
  simp [List.append_assoc]

/-- C2 witness: the amended theorem at acknowledgement code 7 from the
startup state. -/
theorem publish_failure_exits_witness :
    mqtt_publish sampleTopics "t" "x" 7 0 initState
      = { initState with
            logs := [("ERROR", "Error publishing MQTT message: 7"), ("INFO", "Exiting app...")],
            exitCode := some 7 } := by
  have h := publish_failure_exits sampleTopics "t" "x" 7 0 initState (by decide)
  simpa using h

/-- C9 (confirmed): a second interrupt signal arriving while `is_exiting`
is already set causes immediate unconditional exit with status 1 and issues
no further publish — the graceful offline announcement is bypassed. -/
theorem second_sigint_immediate :
    ∀ (T : TopicKey → String) (offAck : Int) (s : BridgeState),
      s.is_exiting = true →
      signal_handler T offAck s = { s with exitCode := some 1 } ∧
      (signal_handler T offAck s).published = s.published := by
  intro T off s h
  unfold signal_handler
  rw [if_pos h]
  exact ⟨rfl, rfl⟩

/-- C9 witness: the handler applied in a state where shutdown is already in
progress. -/
theorem second_sigint_immediate_witness :
    signal_handler sampleTopics 0 { initState with is_exiting := true }
      = { initState with is_exiting := true, exitCode := some 1 } ∧
    (signal_handler sampleTopics 0 { initState with is_exiting := true }).published
      = ({ initState with is_exiting := true } : BridgeState).published :=
  second_sigint_immediate sampleTopics 0 { initState with is_exiting := true } rfl

/-- C7 (confirmed): when the storage query of a poll tick fails with a
device error, the tick re-arms the next timer, logs the failure at warning
level, publishes nothing, and leaves the exit status untouched — the
process survives and polling continues. -/
theorem storage_error_skips_tick :
    ∀ (T : TopicKey → String) (interval : Int) (e : String) (a1 a2 a3 offAck : Int)
      (s : BridgeState),
      refresh_storage_sensors T interval (.error e) a1 a2 a3 offAck s
        = { s with
              timers := s.timers ++ [interval],
              logs := s.logs ++ [("INFO", "Fetching storage sensors..."),
                ("WARNING", "Error fetching storage information " ++ e)] } := by
  intro T interval e a1 a2 a3 off s
  unfold refresh_storage_sensors addLog
  simp [List.append_assoc]

/-- C5 (code bug): with TLS enabled, the CA certificate and the client
certificate set, but `MQTT_TLS_KEY` unset, the startup checks do not stop
the process — the third check at source line 227 tests `mqtt_tls_cert`
again instead of `mqtt_tls_key`, so the bridge proceeds to connect with a
missing key, contradicting the claimed exit-before-connect behaviour. -/
theorem tls_key_missing_not_caught :
    startup_exit_before_connect
      { amcrest_host := some "cam.local", amcrest_password := some "pw",
        mqtt_username := some "user", mqtt_tls_enabled := true,
        mqtt_tls_ca_cert := some "ca.pem", mqtt_tls_cert := some "client.pem",
        mqtt_tls_key := none } = none := rfl

/-- C8 (confirmed): with a storage poll interval of zero, the discovery
sequence contains none of the three storage descriptors (for any capability
flags) and the storage polling task is never armed. -/
theorem storage_interval_zero_disables :
    ∀ d a : Bool,
      (∀ e ∈ discovery_entities d a 0,
        e ≠ DiscEntity.storage_used ∧ e ≠ DiscEntity.storage_used_percent ∧
          e ≠ DiscEntity.storage_total) ∧
      storage_poll_armed 0 = false := by decide

/-- C8 witness: the theorem applied to a doorbell AD410 and the motion
entity, which is present in the interval-zero discovery sequence. -/
theorem storage_interval_zero_disables_witness :
    DiscEntity.motion ∈ discovery_entities true true 0 ∧
    (DiscEntity.motion ≠ DiscEntity.storage_used ∧
      DiscEntity.motion ≠ DiscEntity.storage_used_percent ∧
      DiscEntity.motion ≠ DiscEntity.storage_total) ∧
    storage_poll_armed 0 = false :=
  ⟨by decide, (storage_interval_zero_disables true true).1 DiscEntity.motion (by decide),
    (storage_interval_zero_disables true true).2⟩

/-- Tie-to-even rounding stays between the floor and the floor plus one. -/
theorem pyRoundInt_bounds (q : ℚ) : ⌊q⌋ ≤ pyRoundInt q ∧ pyRoundInt q ≤ ⌊q⌋ + 1 := by
  unfold pyRoundInt
  split_ifs <;> omega

/-- Tie-to-even rounding is monotone. -/
theorem pyRoundInt_mono {q r : ℚ} (h : q ≤ r) : pyRoundInt q ≤ pyRoundInt r := by
  rcases lt_or_eq_of_le (Int.floor_le_floor h) with hf | hf
  · have b1 := pyRoundInt_bounds q
    have b2 := pyRoundInt_bounds r
    omega
  · unfold pyRoundInt
    rw [← hf]
    have hqr : q - (⌊q⌋ : ℚ) ≤ r - (⌊q⌋ : ℚ) := by linarith
    split_ifs <;> first | omega | linarith

/-- C6 (confirmed): for every storage byte value `b ≥ 0` the published
gigabyte conversion equals `round(b / 1073741824, 2)` rendered as a decimal
string (the three successive divisions by 1024 equal one division by
`2^30`), and the converted value is monotone non-decreasing in `b`.  The
float arithmetic of the source is modelled exactly over the rationals. -/
theorem to_gb_round_and_mono :
    ∀ b : ℚ, 0 ≤ b →
      to_gb b = gb_spec b ∧
      ∀ b' : ℚ, b ≤ b' →
        pyRound2 (b / 1024 / 1024 / 1024) ≤ pyRound2 (b' / 1024 / 1024 / 1024) := by
  intro b hb
  constructor
  · unfold to_gb gb_spec
    have e : b / 1024 / 1024 / 1024 = b / 1073741824 := by
      rw [div_div, div_div]
      norm_num
    rw [e]
  · intro b' hbb
    unfold pyRound2
    have h1 : b / 1024 / 1024 / 1024 * 100 ≤ b' / 1024 / 1024 / 1024 * 100 := by linarith
    have h2 := pyRoundInt_mono h1
    have h3 : ((pyRoundInt (b / 1024 / 1024 / 1024 * 100) : ℚ))
        ≤ ((pyRoundInt (b' / 1024 / 1024 / 1024 * 100) : ℚ)) := by
      exact_mod_cast h2
    linarith

/-- C6 witness: the conversion theorem applied at concrete byte counts. -/
theorem to_gb_round_and_mono_witness :
    to_gb 3 = gb_spec 3 ∧
    pyRound2 ((3 : ℚ) / 1024 / 1024 / 1024) ≤ pyRound2 ((5 : ℚ) / 1024 / 1024 / 1024) :=
  ⟨(to_gb_round_and_mono 3 (by norm_num)).1, (to_gb_round_and_mono 3 (by norm_num)).2 5 (by norm_num)⟩
